import Mathlib

/-!
Verification of the reagraph view layer: a shallow embedding of
`GraphRenderer.tsx` and the camera `Controls` component, with theorems about
the imperative `centerGraph` handle, the declarative render output, the
pan/zoom camera commands, the Space-key mouse-binding toggle, the keyboard
listener lifecycle, and the `update`/`control` listener effect.
-/

set_option autoImplicit false

namespace Reagraph

/-- A graph node as consumed by `GraphRenderer`. Only the `id` field is
inspected by the code under study; `payload` stands for the remaining fields
(position, size, ...) so that a node object is not identified with its id. -/
structure GraphNode where
  id : String
  payload : Nat
  deriving DecidableEq

/-- A graph edge; `GraphRenderer` only reads its `id` (as the React key). -/
structure GraphEdge where
  id : String
  payload : Nat
  deriving DecidableEq

/-- The `graph` object returned by `useGraph` and passed through to every
`Node` element. Opaque to the code under study. -/
structure Graph where
  tag : Nat
  deriving DecidableEq

/-- The lookup `nodes.find(n => n.id === id)` used inside `centerGraph`. -/
def jsFind (nodes : List GraphNode) (i : String) : Option GraphNode :=
  nodes.find? (fun n => n.id == i)

/-- Outcome of a `centerGraph` call: either `centerNodes` is invoked with a
list of node objects, or an `Error` with the given message is thrown (and
`centerNodes` is never reached). -/
inductive CenterResult where
  | centers (ns : List GraphNode) : CenterResult
  | throws (msg : String) : CenterResult
  deriving DecidableEq

/-- The `reduce` loop of `centerGraph`: ids are resolved left to right,
each found node is pushed onto the accumulator, and the first id with no
matching node throws. -/
def centerReduce (nodes : List GraphNode) : List String → List GraphNode → CenterResult
  | [], acc => CenterResult.centers acc
  | i :: rest, acc =>
    match jsFind nodes i with
    | some node => centerReduce nodes rest (acc ++ [node])
    | none =>
      CenterResult.throws
        ("Attempted to center " ++ i ++ " but it was not found in the nodes")

/-- The imperative handle `centerGraph(nodesToCenter?)`. When the argument is
a non-empty id list it is replaced by the reduced node list; the final call is
`centerNodes(nodesToCenter || nodes)`. An empty JS array is truthy, so an
empty argument reaches `centerNodes` unchanged as `[]`, not as `nodes`. -/
def centerGraph (nodes : List GraphNode) (nodesToCenter : Option (List String)) :
    CenterResult :=
  match nodesToCenter with
  | none => CenterResult.centers nodes
  | some ids =>
    if ids.isEmpty then CenterResult.centers []
    else centerReduce nodes ids []

/-- One call recorded by a node's `onClick` handler. -/
inductive ClickAction where
  | onNodeClickCall (i : String) : ClickAction
  | centerNodesCall (ns : List GraphNode) : ClickAction
  deriving DecidableEq

/-- The `onClick` closure attached to a rendered `Node`: it invokes
`onNodeClick?.(n.id)` and then `centerNodes([n])`. -/
def nodeClickHandler (hasOnNodeClick : Bool) (n : GraphNode) : List ClickAction :=
  (if hasOnNodeClick then [ClickAction.onNodeClickCall n.id] else []) ++
    [ClickAction.centerNodesCall [n]]

/-- A rendered scene element: a `Node` with its React key, spread node props,
the `graph` object and its `onClick` handler, or an `Edge` with its key and
spread edge props. -/
inductive Element where
  | nodeElem (key : String) (n : GraphNode) (g : Graph) (onClick : List ClickAction) :
      Element
  | edgeElem (key : String) (e : GraphEdge) : Element
  deriving DecidableEq

/-- The render output of `GraphRenderer`: one `Node` per entry of `nodes`
(keyed by the node id), then one `Edge` per entry of `edges` (keyed by the
edge id). -/
def GraphRenderer (hasOnNodeClick : Bool) (nodes : List GraphNode)
    (edges : List GraphEdge) (g : Graph) : List Element :=
  nodes.map (fun n => Element.nodeElem n.id n g (nodeClickHandler hasOnNodeClick n)) ++
    edges.map (fun e => Element.edgeElem e.id e)

/-- A side effect commanded by the `Controls` component on the camera-controls
object, the render loop, or the triggering DOM event. -/
inductive Command where
  | truck (x y : ℚ) (animated : Bool) : Command
  | zoom (amount : ℚ) (animated : Bool) : Command
  | invalidate : Command
  | update (delta : ℚ) : Command
  | dispose : Command
  | preventDefault : Command
  deriving DecidableEq

/-- `panLeft`: `truck(0.03 * event.deltaTime, 0, animated)` then `invalidate()`. -/
def panLeft (animated : Bool) (deltaTime : ℚ) : List Command :=
  [Command.truck (3 / 100 * deltaTime) 0 animated, Command.invalidate]

/-- `panRight`: `truck(-0.03 * event.deltaTime, 0, animated)` then `invalidate()`. -/
def panRight (animated : Bool) (deltaTime : ℚ) : List Command :=
  [Command.truck (-(3 / 100) * deltaTime) 0 animated, Command.invalidate]

/-- `panUp`: `truck(0, 0.03 * event.deltaTime, animated)` then `invalidate()`. -/
def panUp (animated : Bool) (deltaTime : ℚ) : List Command :=
  [Command.truck 0 (3 / 100 * deltaTime) animated, Command.invalidate]

/-- `panDown`: `truck(0, -0.03 * event.deltaTime, animated)` then `invalidate()`. -/
def panDown (animated : Bool) (deltaTime : ℚ) : List Command :=
  [Command.truck 0 (-(3 / 100) * deltaTime) animated, Command.invalidate]

/-- `zoomIn`: `zoom(camera.zoom / 2, animated)` then `invalidate()`. -/
def zoomIn (animated : Bool) (cameraZoom : ℚ) : List Command :=
  [Command.zoom (cameraZoom / 2) animated, Command.invalidate]

/-- `zoomOut`: `zoom(-camera.zoom / 2, animated)` then `invalidate()`. -/
def zoomOut (animated : Bool) (cameraZoom : ℚ) : List Command :=
  [Command.zoom (-cameraZoom / 2) animated, Command.invalidate]

/-- The record built by the `values` memo: the commands each exposed operation
issues when called through the ref or through the context. -/
structure ControlsValues where
  zoomInCmds : List Command
  zoomOutCmds : List Command
  panLeftCmds : List Command
  panRightCmds : List Command
  panDownCmds : List Command
  panUpCmds : List Command
  deriving DecidableEq

/-- The `values` object: zoom operations close over the current `camera.zoom`,
pan operations are called with `{ deltaTime: 1 }`. -/
def controlsValues (animated : Bool) (cameraZoom : ℚ) : ControlsValues :=
  ⟨zoomIn animated cameraZoom, zoomOut animated cameraZoom,
    panLeft animated 1, panRight animated 1, panDown animated 1, panUp animated 1⟩

/-- `useImperativeHandle(ref, () => values)`: the ref exposes `values`. -/
def controlsRefHandle (animated : Bool) (cameraZoom : ℚ) : ControlsValues :=
  controlsValues animated cameraZoom

/-- `ControlsContext.Provider value={values}`: the context exposes `values`. -/
def controlsContextValue (animated : Bool) (cameraZoom : ℚ) : ControlsValues :=
  controlsValues animated cameraZoom

/-- The `CameraMode` union type of the `mode` prop. -/
inductive CameraMode where
  | pan
  | rotate
  deriving DecidableEq

/-- A `CameraControls.ACTION` value bound to a mouse button. -/
inductive MouseAction where
  | ROTATE
  | TRUCK
  deriving DecidableEq

/-- `Controls.defaultProps` substitutes `'rotate'` for an absent `mode` prop. -/
def resolveMode (m : Option CameraMode) : CameraMode :=
  m.getD CameraMode.rotate

/-- The `mode` effect: `mouseButtons.left` is set to `ROTATE` when the mode is
`'rotate'` and to `TRUCK` otherwise. -/
def defaultLeftBinding (mode : CameraMode) : MouseAction :=
  if mode = CameraMode.rotate then MouseAction.ROTATE else MouseAction.TRUCK

/-- A DOM keyboard event as inspected by the Space handlers. -/
structure KeyEvent where
  code : String

/-- The other `ACTION` of the rotate/truck pair. -/
def swapAction : MouseAction → MouseAction
  | MouseAction.ROTATE => MouseAction.TRUCK
  | MouseAction.TRUCK => MouseAction.ROTATE

/-- `onKeyDown`: on a Space keydown the left binding becomes `TRUCK` in
`'rotate'` mode and `ROTATE` otherwise; other keys leave it unchanged. -/
def onKeyDown (mode : CameraMode) (event : KeyEvent) (left : MouseAction) :
    MouseAction :=
  if event.code = "Space" then
    (if mode = CameraMode.rotate then MouseAction.TRUCK else MouseAction.ROTATE)
  else left

/-- `onKeyUp`: on a Space keyup the left binding is set back to the mode's
binding; other keys leave it unchanged. -/
def onKeyUp (mode : CameraMode) (event : KeyEvent) (left : MouseAction) :
    MouseAction :=
  if event.code = "Space" then
    (if mode = CameraMode.rotate then MouseAction.ROTATE else MouseAction.TRUCK)
  else left

/-- A `hold-event` `KeyboardKeyHold` instance: a key code sampled at a fixed
hold interval in milliseconds. -/
structure KeyboardKeyHold where
  keyCode : Nat
  holdIntervalMs : Nat
  deriving DecidableEq

/-- `new holdEvent.KeyboardKeyHold(KEY_CODES.ARROW_LEFT, 100)`. -/
def leftKey : KeyboardKeyHold := ⟨37, 100⟩

/-- `new holdEvent.KeyboardKeyHold(KEY_CODES.ARROW_RIGHT, 100)`. -/
def rightKey : KeyboardKeyHold := ⟨39, 100⟩

/-- `new holdEvent.KeyboardKeyHold(KEY_CODES.ARROW_UP, 100)`. -/
def upKey : KeyboardKeyHold := ⟨38, 100⟩

/-- `new holdEvent.KeyboardKeyHold(KEY_CODES.ARROW_DOWN, 100)`. -/
def downKey : KeyboardKeyHold := ⟨40, 100⟩

/-- An event target the key-listener effect registers listeners on. -/
inductive Target where
  | leftKeyHold
  | rightKeyHold
  | upKeyHold
  | downKeyHold
  | window
  deriving DecidableEq

/-- A handler the key-listener effect registers. -/
inductive Handler where
  | panLeftH
  | panRightH
  | panUpH
  | panDownH
  | onKeyDownH
  | onKeyUpH
  deriving DecidableEq

/-- A registered listener: target object, event name, handler. -/
structure Listener where
  target : Target
  event : String
  handler : Handler
  deriving DecidableEq

/-- The listeners added by the key-listener effect body, in source order. -/
def keyEffectAdds : List Listener :=
  [⟨Target.leftKeyHold, "holding", Handler.panLeftH⟩,
    ⟨Target.rightKeyHold, "holding", Handler.panRightH⟩,
    ⟨Target.upKeyHold, "holding", Handler.panUpH⟩,
    ⟨Target.downKeyHold, "holding", Handler.panDownH⟩,
    ⟨Target.window, "keydown", Handler.onKeyDownH⟩,
    ⟨Target.window, "keyup", Handler.onKeyUpH⟩]

/-- The listeners removed by the key-listener effect's cleanup, in source
order. -/
def keyEffectRemoves : List Listener :=
  [⟨Target.leftKeyHold, "holding", Handler.panLeftH⟩,
    ⟨Target.rightKeyHold, "holding", Handler.panRightH⟩,
    ⟨Target.upKeyHold, "holding", Handler.panUpH⟩,
    ⟨Target.downKeyHold, "holding", Handler.panDownH⟩,
    ⟨Target.window, "keydown", Handler.onKeyDownH⟩,
    ⟨Target.window, "keyup", Handler.onKeyUpH⟩]

/-- The commands a `holding` handler issues for an event with the given
`deltaTime`; the Space handlers issue no camera commands. -/
def runHoldHandler (animated : Bool) (h : Handler) (deltaTime : ℚ) : List Command :=
  match h with
  | Handler.panLeftH => panLeft animated deltaTime
  | Handler.panRightH => panRight animated deltaTime
  | Handler.panUpH => panUp animated deltaTime
  | Handler.panDownH => panDown animated deltaTime
  | Handler.onKeyDownH => []
  | Handler.onKeyUpH => []

/-- The `useFrame` callback: `cameraRef.current?.update(delta)`; a no-op while
the camera ref is still null. -/
def frameHandler (hasCamera : Bool) (delta : ℚ) : List Command :=
  if hasCamera then [Command.update delta] else []

/-- The mount effect's cleanup: `cameraRef.current?.dispose()` on unmount. -/
def unmountCleanup (hasCamera : Bool) : List Command :=
  if hasCamera then [Command.dispose] else []

/-- A `useHotkeys` registration: name, key chord, and the commands its
callback issues (given the current `animated` flag and `camera.zoom`). -/
structure Hotkey where
  name : String
  keys : String
  callbackRun : List Command

/-- The two hotkeys registered by `Controls`: each callback calls
`event.preventDefault()` and then the zoom operation. -/
def hotkeys (animated : Bool) (cameraZoom : ℚ) : List Hotkey :=
  [⟨"Zoom In", "command+shift+i", Command.preventDefault :: zoomIn animated cameraZoom⟩,
    ⟨"Zoom Out", "command+shift+o", Command.preventDefault :: zoomOut animated cameraZoom⟩]

/-- A camera-controls object as held by `cameraRef.current`; its identity is
all the effect under study observes. -/
structure CameraControlsInst where
  instId : Nat
  deriving DecidableEq

/-- Outcome of one run of the `update`/`control` listener effect body. -/
inductive EffectOutcome where
  | ok (added : List Listener) : EffectOutcome
  | nullDereference : EffectOutcome
  deriving DecidableEq

/-- The `update`/`control` listener effect body: `const ref = cameraRef.current;
if (!ref) ref.addEventListener(...)`. With a non-null ref the guard fails and
nothing is registered; with a null ref the branch is taken and
`ref.addEventListener` dereferences null before any listener is added. -/
def updateControlEffect (cameraRefCurrent : Option CameraControlsInst) :
    EffectOutcome :=
  match cameraRefCurrent with
  | some _ => EffectOutcome.ok []
  | none => EffectOutcome.nullDereference

/-! Helper lemmas about `centerReduce` and the render output. -/

/-- When every id resolves, the reduce loop appends, in id order, the node
found for each id. -/
theorem centerReduce_allFound (nodes : List GraphNode) (ids : List String) :
    ∀ acc : List GraphNode, (∀ i ∈ ids, (jsFind nodes i).isSome) →
      centerReduce nodes ids acc =
        CenterResult.centers (acc ++ ids.filterMap (jsFind nodes)) := by
  induction ids with
  | nil => intro acc _; simp [centerReduce]
  | cons j rest ih =>
    intro acc h
    obtain ⟨nd, hnd⟩ :=
      Option.isSome_iff_exists.mp (h j (List.mem_cons_self j rest))
    simp only [centerReduce, hnd]
    rw [ih (acc ++ [nd]) (fun i hi => h i (List.mem_cons_of_mem j hi))]
    simp [List.filterMap_cons, hnd]

/-- The reduce loop throws on the first id with no matching node, naming it. -/
theorem centerReduce_firstMissing (nodes : List GraphNode) (i : String)
    (ids : List String) :
    ∀ acc : List GraphNode,
      ids.find? (fun j => (jsFind nodes j).isNone) = some i →
      centerReduce nodes ids acc =
        CenterResult.throws
          ("Attempted to center " ++ i ++ " but it was not found in the nodes") := by
  induction ids with
  | nil => intro acc h; simp at h
  | cons j rest ih =>
    intro acc h
    by_cases hj : (jsFind nodes j).isNone
    · rw [List.find?_cons_of_pos (p := fun j => (jsFind nodes j).isNone) rest hj] at h
      have hji : j = i := Option.some_inj.mp h
      have hnone : jsFind nodes j = none := Option.isNone_iff_eq_none.mp hj
      subst hji
      simp [centerReduce, hnone]
    · rw [List.find?_cons_of_neg (p := fun j => (jsFind nodes j).isNone) rest hj] at h
      have hs : (jsFind nodes j).isSome := by
        cases hx : jsFind nodes j
        · rw [hx] at hj; simp at hj
        · rfl
      obtain ⟨nd, hnd⟩ := Option.isSome_iff_exists.mp hs
      simp only [centerReduce, hnd]
      exact ih (acc ++ [nd]) h

/-- `filterMap` keeps the length when the function succeeds on every element. -/
theorem filterMap_length_allSome {α β : Type} (f : α → Option β) (l : List α)
    (h : ∀ a ∈ l, (f a).isSome) : (l.filterMap f).length = l.length := by
  induction l with
  | nil => simp
  | cons a t ih =>
    obtain ⟨b, hb⟩ := Option.isSome_iff_exists.mp (h a (List.mem_cons_self a t))
    simp [List.filterMap_cons, hb,
      ih (fun x hx => h x (List.mem_cons_of_mem a hx))]

/-- The render output has one element per node plus one per edge. -/
theorem GraphRenderer_length (b : Bool) (nodes : List GraphNode)
    (edges : List GraphEdge) (g : Graph) :
    (GraphRenderer b nodes edges g).length = nodes.length + edges.length := by
  simp [GraphRenderer]

/-- Position `i` of the render output holds the `Node` element of the `i`-th
node, keyed by its id, carrying the node, the graph and its click handler. -/
theorem GraphRenderer_node_at (b : Bool) (nodes : List GraphNode)
    (edges : List GraphEdge) (g : Graph) (i : Nat) (n : GraphNode)
    (h : nodes[i]? = some n) :
    (GraphRenderer b nodes edges g)[i]? =
      some (Element.nodeElem n.id n g (nodeClickHandler b n)) := by
  have hi : i < nodes.length := by
    by_contra hge
    rw [List.getElem?_eq_none (Nat.le_of_not_lt hge)] at h
    exact Option.noConfusion h
  unfold GraphRenderer
  rw [List.getElem?_append_left (by simpa using hi), List.getElem?_map, h]
  rfl

/-- Position `nodes.length + j` of the render output holds the `Edge` element
of the `j`-th edge, keyed by its id. -/
theorem GraphRenderer_edge_at (b : Bool) (nodes : List GraphNode)
    (edges : List GraphEdge) (g : Graph) (j : Nat) (e : GraphEdge)
    (h : edges[j]? = some e) :
    (GraphRenderer b nodes edges g)[nodes.length + j]? =
      some (Element.edgeElem e.id e) := by
  unfold GraphRenderer
  rw [List.getElem?_append_right (by simp)]
  simp [List.getElem?_map, h]

/-! Claim theorems. -/

/-- C1 (amended): a `centerGraph` call with a non-empty id list in which every
id matches some node invokes `centerNodes` with exactly the matching node
objects in id order, one per id; an absent argument centers the full current
nodes list; an empty id list reaches `centerNodes` unchanged as the empty
list (a JS empty array is truthy in `nodesToCenter || nodes`), not as the
full nodes list. -/
theorem centerGraph_matching_and_absent (nodes : List GraphNode)
    (ids : List String) (hne : ids ≠ [])
    (hall : ∀ i ∈ ids, (jsFind nodes i).isSome) :
    centerGraph nodes (some ids) =
      CenterResult.centers (ids.filterMap (jsFind nodes)) ∧
    (ids.filterMap (jsFind nodes)).length = ids.length ∧
    centerGraph nodes none = CenterResult.centers nodes ∧
    centerGraph nodes (some []) = CenterResult.centers [] := by
  refine ⟨?_, filterMap_length_allSome _ _ hall, rfl, rfl⟩
  have hne2 : ids.isEmpty = false := by
    cases ids
    · exact absurd rfl hne
    · rfl
  simp [centerGraph, hne2, centerReduce_allFound nodes ids [] hall]

/-- Witness for `centerGraph_matching_and_absent` on a concrete two-node
graph centered at `["b", "a"]`. -/
theorem centerGraph_matching_and_absent_witness :
    centerGraph [⟨"a", 0⟩, ⟨"b", 1⟩] (some ["b", "a"]) =
      CenterResult.centers (["b", "a"].filterMap (jsFind [⟨"a", 0⟩, ⟨"b", 1⟩])) ∧
    (["b", "a"].filterMap (jsFind [⟨"a", 0⟩, ⟨"b", 1⟩])).length =
      (["b", "a"] : List String).length ∧
    centerGraph [⟨"a", 0⟩, ⟨"b", 1⟩] none =
      CenterResult.centers [⟨"a", 0⟩, ⟨"b", 1⟩] ∧
    centerGraph [⟨"a", 0⟩, ⟨"b", 1⟩] (some []) = CenterResult.centers [] :=
  centerGraph_matching_and_absent [⟨"a", 0⟩, ⟨"b", 1⟩] ["b", "a"]
    (by decide) (by decide)

/-- C1 counterexample: on the one-node graph `[{id: "a"}]`, a `centerGraph`
call with the empty id list invokes `centerNodes` with `[]`, not with the
full current nodes list as the claim states. -/
theorem centerGraph_emptyList_counterexample :
    centerGraph [⟨"a", 0⟩] (some []) = CenterResult.centers [] ∧
    centerGraph [⟨"a", 0⟩] (some []) ≠ CenterResult.centers [⟨"a", 0⟩] := by
  decide

/-- C2: a `centerGraph` call whose id list contains an id matching no node
throws an `Error` whose message names such an id (the first missing one in
list order), and `centerNodes` is never invoked, so no centering occurs. -/
theorem centerGraph_missingId_throws (nodes : List GraphNode)
    (ids : List String) (hmiss : ∃ j ∈ ids, jsFind nodes j = none) :
    ∃ i ∈ ids, jsFind nodes i = none ∧
      centerGraph nodes (some ids) =
        CenterResult.throws
          ("Attempted to center " ++ i ++ " but it was not found in the nodes") ∧
      ∀ l, centerGraph nodes (some ids) ≠ CenterResult.centers l := by
  have hfind : (ids.find? (fun j => (jsFind nodes j).isNone)).isSome := by
    rw [List.find?_isSome]
    obtain ⟨j, hj, hjn⟩ := hmiss
    exact ⟨j, hj, by simp [hjn]⟩
  obtain ⟨i, hi⟩ := Option.isSome_iff_exists.mp hfind
  have hmem : i ∈ ids := List.mem_of_find?_eq_some hi
  have hnone : jsFind nodes i = none :=
    Option.isNone_iff_eq_none.mp (by simpa using List.find?_some hi)
  have hne2 : ids.isEmpty = false := by
    cases ids
    · simp at hmem
    · rfl
  have heq : centerGraph nodes (some ids) =
      CenterResult.throws
        ("Attempted to center " ++ i ++ " but it was not found in the nodes") := by
    simp only [centerGraph, hne2, Bool.false_eq_true, if_false]
    exact centerReduce_firstMissing nodes i ids [] hi
  refine ⟨i, hmem, hnone, heq, ?_⟩
  intro l hcontra
  rw [heq] at hcontra
  exact CenterResult.noConfusion hcontra

/-- Witness for `centerGraph_missingId_throws`: centering the absent id
`"x"` on a one-node graph throws and never centers. -/
theorem centerGraph_missingId_throws_witness :
    ∃ i ∈ ["x"], jsFind [(⟨"a", 0⟩ : GraphNode)] i = none ∧
      centerGraph [⟨"a", 0⟩] (some ["x"]) =
        CenterResult.throws
          ("Attempted to center " ++ i ++ " but it was not found in the nodes") ∧
      ∀ l, centerGraph [⟨"a", 0⟩] (some ["x"]) ≠ CenterResult.centers l :=
  centerGraph_missingId_throws [⟨"a", 0⟩] ["x"] ⟨"x", by decide, by decide⟩

/-- C3: `GraphRenderer` renders exactly one `Node` element per entry of the
nodes list, keyed by the node's id and passing the node's fields and the
graph, followed by exactly one `Edge` element per entry of the edges list,
keyed by the edge's id, preserving the order of both input lists. -/
theorem GraphRenderer_oneToOne (b : Bool) (nodes : List GraphNode)
    (edges : List GraphEdge) (g : Graph) :
    (GraphRenderer b nodes edges g).length = nodes.length + edges.length ∧
    (∀ (i : Nat) (n : GraphNode), nodes[i]? = some n →
      (GraphRenderer b nodes edges g)[i]? =
        some (Element.nodeElem n.id n g (nodeClickHandler b n))) ∧
    (∀ (j : Nat) (e : GraphEdge), edges[j]? = some e →
      (GraphRenderer b nodes edges g)[nodes.length + j]? =
        some (Element.edgeElem e.id e)) :=
  ⟨GraphRenderer_length b nodes edges g,
    fun i n h => GraphRenderer_node_at b nodes edges g i n h,
    fun j e h => GraphRenderer_edge_at b nodes edges g j e h⟩

/-- Witness for `GraphRenderer_oneToOne` on a one-node, one-edge graph: the
element after the node block is the edge element keyed by its id. -/
theorem GraphRenderer_oneToOne_witness :
    (GraphRenderer true [⟨"a", 0⟩] [⟨"e1", 5⟩] ⟨0⟩)[1]? =
      some (Element.edgeElem "e1" ⟨"e1", 5⟩) :=
  (GraphRenderer_oneToOne true [⟨"a", 0⟩] [⟨"e1", 5⟩] ⟨0⟩).2.2 0 ⟨"e1", 5⟩ rfl

/-- C4: the `onClick` handler of every rendered node first invokes the
provided `onNodeClick` callback with exactly that node's id and then centers
the one-element list containing that node; with no callback provided only the
centering call happens. -/
theorem GraphRenderer_nodeClick_order (nodes : List GraphNode)
    (edges : List GraphEdge) (g : Graph) (i : Nat) (n : GraphNode)
    (h : nodes[i]? = some n) :
    (GraphRenderer true nodes edges g)[i]? =
      some (Element.nodeElem n.id n g
        [ClickAction.onNodeClickCall n.id, ClickAction.centerNodesCall [n]]) ∧
    (GraphRenderer false nodes edges g)[i]? =
      some (Element.nodeElem n.id n g [ClickAction.centerNodesCall [n]]) := by
  constructor
  · rw [GraphRenderer_node_at true nodes edges g i n h]
    rfl
  · rw [GraphRenderer_node_at false nodes edges g i n h]
    rfl

/-- Witness for `GraphRenderer_nodeClick_order` on a one-node graph. -/
theorem GraphRenderer_nodeClick_order_witness :
    (GraphRenderer true [⟨"a", 0⟩] [] ⟨0⟩)[0]? =
      some (Element.nodeElem "a" ⟨"a", 0⟩ ⟨0⟩
        [ClickAction.onNodeClickCall "a",
          ClickAction.centerNodesCall [⟨"a", 0⟩]]) ∧
    (GraphRenderer false [⟨"a", 0⟩] [] ⟨0⟩)[0]? =
      some (Element.nodeElem "a" ⟨"a", 0⟩ ⟨0⟩
        [ClickAction.centerNodesCall [⟨"a", 0⟩]]) :=
  GraphRenderer_nodeClick_order [⟨"a", 0⟩] [] ⟨0⟩ 0 ⟨"a", 0⟩ rfl

/-- C5: for every `deltaTime`, each pan operation trucks the camera by
magnitude `0.03 * deltaTime` along its axis and then invalidates: `panLeft`
by `(+0.03*dt, 0)`, `panRight` by `(-0.03*dt, 0)`, `panUp` by
`(0, +0.03*dt)`, `panDown` by `(0, -0.03*dt)`. -/
theorem pan_truck_magnitudes (a : Bool) (dt : ℚ) :
    panLeft a dt = [Command.truck (3 / 100 * dt) 0 a, Command.invalidate] ∧
    panRight a dt = [Command.truck (-(3 / 100) * dt) 0 a, Command.invalidate] ∧
    panUp a dt = [Command.truck 0 (3 / 100 * dt) a, Command.invalidate] ∧
    panDown a dt = [Command.truck 0 (-(3 / 100) * dt) a, Command.invalidate] :=
  ⟨rfl, rfl, rfl, rfl⟩

/-- C6: the imperative ref handle and the context expose the same operations;
`zoomIn` commands `zoom(camera.zoom / 2)` then invalidate, `zoomOut` commands
`zoom(-camera.zoom / 2)` then invalidate, and the exposed pan operations are
the pan callbacks applied with `deltaTime` fixed to `1`. -/
theorem zoom_pan_handles_exposed (a : Bool) (z : ℚ) :
    controlsRefHandle a z = controlsContextValue a z ∧
    (controlsRefHandle a z).zoomInCmds =
      [Command.zoom (z / 2) a, Command.invalidate] ∧
    (controlsRefHandle a z).zoomOutCmds =
      [Command.zoom (-z / 2) a, Command.invalidate] ∧
    (controlsRefHandle a z).panLeftCmds = panLeft a 1 ∧
    (controlsRefHandle a z).panRightCmds = panRight a 1 ∧
    (controlsRefHandle a z).panUpCmds = panUp a 1 ∧
    (controlsRefHandle a z).panDownCmds = panDown a 1 :=
  ⟨rfl, rfl, rfl, rfl, rfl, rfl, rfl⟩

/-- C7: with the default mode `'rotate'` the left mouse button is bound to
`ROTATE` and with the other mode `'pan'` to `TRUCK`; a Space keydown swaps
the mode's binding to the opposite action and a Space keyup restores it, so a
keydown followed by a keyup leaves the left binding at the mode's default. -/
theorem space_toggle_roundTrip (m : CameraMode) (left : MouseAction) :
    resolveMode none = CameraMode.rotate ∧
    defaultLeftBinding CameraMode.rotate = MouseAction.ROTATE ∧
    defaultLeftBinding CameraMode.pan = MouseAction.TRUCK ∧
    onKeyDown m ⟨"Space"⟩ (defaultLeftBinding m) =
      swapAction (defaultLeftBinding m) ∧
    onKeyUp m ⟨"Space"⟩ (onKeyDown m ⟨"Space"⟩ left) = defaultLeftBinding m := by
  cases m <;> cases left <;> decide

/-- C8: each arrow key is held-sampled at a 100 ms interval and its `holding`
handler fires the matching pan callback with the event's `deltaTime`; the
Space keydown/keyup handlers are attached to the window; and the cleanup
removes exactly the listeners the effect added, so none survives unmount. -/
theorem key_listener_balance (a : Bool) (dt : ℚ) :
    keyEffectRemoves = keyEffectAdds ∧
    keyEffectAdds =
      [⟨Target.leftKeyHold, "holding", Handler.panLeftH⟩,
        ⟨Target.rightKeyHold, "holding", Handler.panRightH⟩,
        ⟨Target.upKeyHold, "holding", Handler.panUpH⟩,
        ⟨Target.downKeyHold, "holding", Handler.panDownH⟩,
        ⟨Target.window, "keydown", Handler.onKeyDownH⟩,
        ⟨Target.window, "keyup", Handler.onKeyUpH⟩] ∧
    leftKey.holdIntervalMs = 100 ∧ rightKey.holdIntervalMs = 100 ∧
    upKey.holdIntervalMs = 100 ∧ downKey.holdIntervalMs = 100 ∧
    runHoldHandler a Handler.panLeftH dt = panLeft a dt ∧
    runHoldHandler a Handler.panRightH dt = panRight a dt ∧
    runHoldHandler a Handler.panUpH dt = panUp a dt ∧
    runHoldHandler a Handler.panDownH dt = panDown a dt :=
  ⟨rfl, rfl, rfl, rfl, rfl, rfl, rfl, rfl, rfl, rfl⟩

/-- C9: every frame calls the camera controls' `update` with the frame delta,
the registered hotkeys `command+shift+i` and `command+shift+o` run
`preventDefault` and then `zoomIn` resp. `zoomOut`, and on unmount the camera
controls are disposed. -/
theorem frame_hotkeys_dispose (a : Bool) (z d : ℚ) :
    frameHandler true d = [Command.update d] ∧
    (hotkeys a z).map Hotkey.keys = ["command+shift+i", "command+shift+o"] ∧
    (hotkeys a z).map Hotkey.callbackRun =
      [Command.preventDefault :: zoomIn a z,
        Command.preventDefault :: zoomOut a z] ∧
    unmountCleanup true = [Command.dispose] :=
  ⟨rfl, rfl, rfl, rfl⟩

/-- C10: the `update`/`control` wiring effect's guard is inverted: a run with
a non-null camera ref registers no listener at all, and a run with a null ref
dereferences null when calling `addEventListener`. -/
theorem updateControl_effect_inverted_guard (c : CameraControlsInst) :
    updateControlEffect (some c) = EffectOutcome.ok [] ∧
    updateControlEffect none = EffectOutcome.nullDereference :=
  ⟨rfl, rfl⟩

end Reagraph
